import Mathlib

/-!
Verification of the pagination and slide-assembly core of the
Resume-Extraction repository (`optimized_renderer_v2.py` and
`ppt_renderer.py`).

Python strings are modelled as Lean `String` values.  The Python string
operations the code uses (single-character `replace`, `split`, `strip`,
slicing, `len`, `join`) are modelled structurally on the underlying
character list, so that every definition evaluates inside the kernel.
-/

/-- Python `s.replace(old, new)` for a one-character pattern and a
one-character replacement (used on the year field: `replace("、", ",")`). -/
def pyCharReplace (old new : Char) (s : String) : String :=
  String.mk (s.data.map (fun c => if c = old then new else c))

/-- Python `s.replace(pat, "")` for a one-character pattern: removes every
occurrence (used to strip 《 and 》 from journal names). -/
def pyCharRemove (pat : Char) (s : String) : String :=
  String.mk (s.data.filter (fun c => c ≠ pat))

/-- Python `s.strip()`: whitespace dropped from both ends. -/
def pyStrip (s : String) : String :=
  String.mk (((s.data.dropWhile Char.isWhitespace).reverse.dropWhile
    Char.isWhitespace).reverse)

/-- Python `s.split(sep)` for a one-character separator. -/
def pySplit (sep : Char) (s : String) : List String :=
  (List.splitOn sep s.data).map String.mk

/-- Python `s[:n]`: the first `n` characters of `s`. -/
def pyTake (n : Nat) (s : String) : String :=
  String.mk (s.data.take n)

/-- Python `len(s)`: the number of characters of `s`. -/
def pyLen (s : String) : Nat :=
  s.data.length

/-- Python `sep.join(parts)`. -/
def pyJoin (sep : String) : List String → String
  | [] => ""
  | [x] => x
  | x :: xs => x ++ sep ++ pyJoin sep xs

/-- Python string concatenation of two pieces. -/
def pyConcat (a b : String) : String :=
  String.mk (a.data ++ b.data)

/-- The conditional hard cut `x[:n] if len(x) > n else x` that the fillers
apply per text field (no ellipsis or other marker is added). -/
def hardCap (n : Nat) (s : String) : String :=
  if pyLen s > n then pyTake n s else s

/-- One grouped publication record (one entry of 发表论文情况 as read by
`DataFormatter.extract_paper_items`): a journal group holding a list of paper
titles plus shared metadata.  A missing or null field is modelled as the
empty string, matching `paper_group.get(key, "")`. -/
structure PaperGroup where
  journal : String
  category : String
  years : String
  titles : List String
deriving DecidableEq, Inhabited

/-- One flattened paper row (`class PaperItem` of `ppt_renderer.py`). -/
structure PaperItem where
  index : Nat
  title : String
  journal : String
  category : String
  year : String
  is_first_author : String
deriving DecidableEq, Inhabited

/-- The constructor `PaperItem.__init__`: the category argument is replaced
by "-" when falsy (`self.category = category or "-"`). -/
def PaperItem.fromInit (index : Nat)
    (title journal category year fa : String) : PaperItem :=
  { index := index, title := title, journal := journal
    category := if category = "" then "-" else category
    year := year, is_first_author := fa }

/-- The year token list of `extract_paper_items`:
`[y.strip() for y in str(years).replace("、", ",").split(",") if y.strip()]`. -/
def year_tokens (years : String) : List String :=
  ((pySplit ',' (pyCharReplace '、' ',' years)).map pyStrip).filter
    (fun y => y ≠ "")

/-- The inner loop of `extract_paper_items`
(`for i, title in enumerate(titles)`): the running global index of the item
built at in-group position `i` is `index0 + i`, and its year is
`year_list[i] if i < len(year_list) else (year_list[0] if year_list else "-")`,
which is exactly `year_list.getD i (year_list.headD "-")`. -/
def extract_group_aux (index0 : Nat) (journal category : String)
    (year_list : List String) : Nat → List String → List PaperItem
  | _, [] => []
  | i, title :: rest =>
      PaperItem.fromInit (index0 + i) title journal category
          (year_list.getD i (year_list.headD "-")) "待确认"
        :: extract_group_aux index0 journal category year_list (i + 1) rest

/-- One group's contribution to the flat item list: journal with 《 and 》
removed, category defaulted to "-" when empty, years tokenised. -/
def extract_group_items (index0 : Nat) (g : PaperGroup) : List PaperItem :=
  extract_group_aux index0 (pyCharRemove '》' (pyCharRemove '《' g.journal))
    (if g.category = "" then "-" else g.category) (year_tokens g.years)
    0 g.titles

/-- The group loop of `extract_paper_items` with the running 1-based index
made explicit: each group advances the index by its title count. -/
def extract_paper_items_from (index : Nat) : List PaperGroup → List PaperItem
  | [] => []
  | g :: rest =>
      extract_group_items index g
        ++ extract_paper_items_from (index + g.titles.length) rest

/-- `DataFormatter.extract_paper_items`: the index starts at 1. -/
def extract_paper_items (papers : List PaperGroup) : List PaperItem :=
  extract_paper_items_from 1 papers

/-- One entry of 获批项目情况 as read by the fillers. -/
structure Project where
  category : String
  names : List String
  count : String
  year : String
  note : String
deriving DecidableEq, Inhabited

/-- One entry of 获奖情况 as read by `_fill_other_achievements_table`. -/
structure Award where
  name : String
  year : String
deriving DecidableEq, Inhabited

/-- One entry of 其他成果 as read by `_fill_other_achievements_table`. -/
structure OtherAchievement where
  category : String
  names : List String
  count : String
  year : String
  note : String
deriving DecidableEq, Inhabited

/-- `OptimizedTemplateRendererV2._calculate_paper_pages`.  For a positive
integer `remaining`, Python `math.ceil(remaining / 11)` equals
`(remaining + 10) / 11` in natural division. -/
def calculate_paper_pages (total_papers : Nat) : Nat :=
  if total_papers = 0 then 0
  else if total_papers ≤ 8 then 1
  else 1 + (total_papers - 8 + 10) / 11

/-- The project half of `_calculate_project_pages`:
`math.ceil(len(projects) / 10) if projects else 1`. -/
def project_pages_part (projects : List Project) : Nat :=
  if projects = [] then 1 else (projects.length + 9) / 10

/-- The achievements half of `_calculate_project_pages`: `other_pages`
starts at 1 and is recomputed from `total_rows = len(awards) + len(other)`
when `awards or other` is truthy (first page and every later page hold
7 rows). -/
def other_pages_part (awards : List Award)
    (other : List OtherAchievement) : Nat :=
  if awards = [] ∧ other = [] then 1
  else
    let total_rows := awards.length + other.length
    if total_rows = 0 then 1
    else if total_rows ≤ 7 then 1
    else 1 + (total_rows - 7 + 6) / 7

/-- `OptimizedTemplateRendererV2._calculate_project_pages`: the sum of the
project page count and the achievements page count. -/
def calculate_project_pages (projects : List Project) (awards : List Award)
    (other : List OtherAchievement) : Nat :=
  project_pages_part projects + other_pages_part awards other

/-- `project_pages_count` recomputed inside `_render_single_resume`:
`math.ceil(project_count / 10) if project_count > 0 else 1`. -/
def render_project_pages_count (projects : List Project) : Nat :=
  if projects.length > 0 then (projects.length + 9) / 10 else 1

/-- `other_pages_count` inside `_render_single_resume`:
`project_pages - project_pages_count` (Python integer subtraction; the
difference is shown to be positive, so natural subtraction is exact). -/
def render_other_pages_count (projects : List Project) (awards : List Award)
    (other : List OtherAchievement) : Nat :=
  calculate_project_pages projects awards other
    - render_project_pages_count projects

/-- The fields of one subject record that the pagination core reads. -/
structure Resume where
  name : String
  papers : List PaperGroup
  projects : List Project
  awards : List Award
  other : List OtherAchievement
deriving Inhabited

/-- `OptimizedTemplateRendererV2.render_all`, to the extent the claims need
it: the guard `if not resumes: raise ValueError("简历列表不能为空")` runs
before any template is opened or any slide is rendered, so an empty subject
list yields the error and no output.  The Ok branch abstracts the subsequent
per-subject render passes by each subject's planned paper page count. -/
def render_all (resumes : List Resume) : Except String (List Nat) :=
  if resumes.isEmpty then Except.error "简历列表不能为空"
  else Except.ok (resumes.map (fun r =>
    calculate_paper_pages (extract_paper_items r.papers).length))

/-!
Tables.  A slide table is modelled by the text of its cells: a list of rows,
each row the list of its cells' text (`table.rows[i].cells[j].text`).
Row 0 is the header.  Formatting state (fonts, wrap, alignment) carries no
data and is not modelled.
-/

/-- The clear loop shared by every filler and by `_clear_table_data` with
`keep_header` false: every cell of every listed row is set to `""`. -/
def clear_rows : List (List String) → List (List String)
  | [] => []
  | row :: rest => row.map (fun _ => "") :: clear_rows rest

/-- `OptimizedTemplateRendererV2._clear_table_data`: rows from `start_row`
(1 when the header is kept, 0 otherwise) onward are cleared. -/
def clear_table_data (table : List (List String))
    (keep_header : Bool) : List (List String) :=
  match keep_header, table with
  | true, [] => []
  | true, header :: rest => header :: clear_rows rest
  | false, _ => clear_rows table

/-- The body of `_fill_paper_table`'s write loop for one row: cells 0-4 are
written when the row has at least 5 cells (`if len(row.cells) >= 5`),
with the per-field hard caps of the source (journal 60, title 80,
category 20 — the category cut is applied only to a non-empty category,
and `paper.category or ""` is the category itself otherwise). -/
def fill_row_with_paper (row : List String) (paper : PaperItem) :
    List String :=
  if 5 ≤ row.length then
    ((((row.set 0 (hardCap 60 paper.journal)).set 1
        (hardCap 80 paper.title)).set 2 "1").set 3 "").set 4
      (if paper.category ≠ "" ∧ pyLen paper.category > 20 then
        pyTake 20 paper.category
      else paper.category)
  else row

/-- The write loop of `_fill_paper_table` over the data rows: row `i + 1`
receives item `i`; the loop breaks at the end of the table, and rows past
the item list keep their (cleared) contents. -/
def fill_paper_rows : List (List String) → List PaperItem →
    List (List String)
  | [], _ => []
  | rows, [] => rows
  | row :: rest, item :: items =>
      fill_row_with_paper row item :: fill_paper_rows rest items

/-- `OptimizedTemplateRendererV2._fill_paper_table`: every data row is
cleared first, then the window is written from row 1 on. -/
def fill_paper_table (table : List (List String))
    (paper_items : List PaperItem) : List (List String) :=
  match clear_table_data table true with
  | [] => []
  | header :: rest => header :: fill_paper_rows rest paper_items

/-- One award row of `_fill_other_achievements_table`: cells 0-3 are written
when the row has at least 4 cells.  `is_first` is `current_row == 1`: only
the first data row shows the 获奖情况 group label and the award total. -/
def fill_award_row (row : List String) (a : Award) (is_first : Bool)
    (award_total : Nat) : List String :=
  if 4 ≤ row.length then
    (((row.set 0 (if is_first then "获奖情况" else "")).set 1
        (hardCap 80 a.name)).set 2
        (if is_first then toString award_total ++ "项" else "1项")).set 3
      (if a.year = "" then "" else a.year)
  else row

/-- One other-achievement row of `_fill_other_achievements_table`: cells 0-3
are written when the row has at least 4 cells, with the source's caps
(category sliced to 20, joined names capped at 80, year-plus-note capped
at 50). -/
def fill_other_row (row : List String) (item : OtherAchievement) :
    List String :=
  if 4 ≤ row.length then
    (((row.set 0 (pyTake 20 item.category)).set 1
        (hardCap 80
          (if item.names ≠ [] then pyJoin "、" item.names else ""))).set 2
        item.count).set 3
      (hardCap 50 (pyConcat item.year (pyConcat " " item.note)))
  else row

/-- The other-achievements loop: `row_idx = current_row + i`, breaking at
the end of the table. -/
def fill_other_rows : List (List String) → List OtherAchievement →
    List (List String)
  | [], _ => []
  | rows, [] => rows
  | row :: rest, item :: items =>
      fill_other_row row item :: fill_other_rows rest items

/-- The award loop followed by the other-achievements loop, over the data
rows (the row at relative position `k` has absolute row index
`current_row + k`): each award consumes one row, `current_row` advances by
one per award, and the other-achievement rows start right after the last
award row. -/
def fill_achievement_rows (award_total current_row : Nat) :
    List (List String) → List Award → List OtherAchievement →
    List (List String)
  | [], _, _ => []
  | rows, [], others => fill_other_rows rows others
  | row :: rest, a :: as_, others =>
      fill_award_row row a (current_row == 1) award_total
        :: fill_achievement_rows award_total (current_row + 1) rest as_ others

/-- `OptimizedTemplateRendererV2._fill_other_achievements_table`: every data
row is cleared, then the awards of the page are written from row 1 on
(`current_row = 1`), then the other achievements of the page right after.
The `show_note` flag only affects a note textbox, not the table. -/
def fill_other_achievements_table (table : List (List String))
    (other_list : List OtherAchievement) (awards : List Award)
    (_show_note : Bool) : List (List String) :=
  match clear_table_data table true with
  | [] => []
  | header :: rest =>
      header :: fill_achievement_rows awards.length 1 rest awards other_list

/-- The achievements branch of `_fill_project_slide_paginated`: the slice of
awards and of other achievements shown on achievements page
`other_page_num` (0-based).  Every page holds 7 rows
(`start_idx = other_page_num * 7`, `end_idx = min(start_idx + 7, total)`);
a page starting inside the award range shows
`awards[start_idx:min(end_idx, total_awards)]` and, when space remains and
`end_idx > total_awards`, `other[max(0, start_idx - total_awards):end_idx -
total_awards]`; a later page shows only
`other[start_idx - total_awards:end_idx - total_awards]`.
Python slices `l[s:e]` are `(l.take e).drop s`; the `max(0, ·)` of the
source is natural subtraction here. -/
def achievements_page_slices (awards : List Award)
    (other : List OtherAchievement) (other_page_num : Nat) :
    List Award × List OtherAchievement :=
  let total_awards := awards.length
  let total_other := other.length
  let total_items := total_awards + total_other
  let start_idx := other_page_num * 7
  let end_idx := min (start_idx + 7) total_items
  if start_idx < total_awards then
    let awards_on_page := (awards.take (min end_idx total_awards)).drop
      start_idx
    let remaining_space := 7 - awards_on_page.length
    let other_on_page :=
      if remaining_space > 0 ∧ end_idx > total_awards then
        (other.take (end_idx - total_awards)).drop (start_idx - total_awards)
      else []
    (awards_on_page, other_on_page)
  else
    ([], (other.take (end_idx - total_awards)).drop
      (start_idx - total_awards))

/-- One achievements page as `_fill_project_slide_paginated` fills it: the
page's slices written into the slide's table
(`show_note = (other_page_num == 0)`). -/
def fill_achievements_page (table : List (List String))
    (awards : List Award) (other : List OtherAchievement)
    (other_page_num : Nat) : List (List String) :=
  let slices := achievements_page_slices awards other other_page_num
  fill_other_achievements_table table slices.2 slices.1
    (other_page_num == 0)

/-!
The deck.  A presentation is modelled by the ordered list of its slides'
kinds; insertion and deletion act on this list exactly as the source acts
on the slide-id list `prs.slides._sldIdLst`.
-/

/-- The kind of a template slide. -/
inductive SlideKind where
  | cover
  | indexSummary
  | basicInfo
  | paperTable
  | projectTable
  | achievementTable
  | closing
deriving DecidableEq, Inhabited

/-- Modelled from the spec: the template presentation 副本人才引进ppt.pptx is
a binary resource that is not under src/.  Spec section 6 fixes its slide
order — cover, index-summary, basic-info, the default two paper-table
slides, the grant/project-table slide, the achievement-table slide and the
closing-opinion slide — matching the slide indices hard-coded in
`_render_single_resume` (3 and 4 for papers, 5 for projects, 6 for
achievements). -/
def template_slides : List SlideKind :=
  [.cover, .indexSummary, .basicInfo, .paperTable, .paperTable,
   .projectTable, .achievementTable, .closing]

/-- `_copy_slide_to_presentation`: the copied slide is appended at the
end of the target deck. -/
def copy_slide_to_presentation (deck : List SlideKind) (s : SlideKind) :
    List SlideKind :=
  deck ++ [s]

/-- `_insert_slide_at_position`: the slide is appended at the end, then its
slide-id element (the last one) is removed and re-inserted at `position`. -/
def insert_slide_at_position (deck : List SlideKind) (s : SlideKind)
    (position : Nat) : List SlideKind :=
  let appended := copy_slide_to_presentation deck s
  appended.dropLast.insertIdx position s

/-- The clone-insertion loop of `_render_single_resume` step 4: each extra
paper page clones the template's 11-row paper slide (template index 4),
inserting at positions 5, 6, ... (`insert_position += 1` per clone). -/
def insert_extra_paper_slides : List SlideKind → Nat → Nat → List SlideKind
  | deck, 0, _ => deck
  | deck, n + 1, pos =>
      insert_extra_paper_slides
        (insert_slide_at_position deck (template_slides.getD 4 .cover) pos)
        n (pos + 1)

/-- The paper-slide reconciliation of `_render_single_resume` step 4: with 0
planned pages both template paper slides are deleted (index 4, then
index 3); with 1 page the second one (index 4) is deleted; with more than 2
pages `paper_pages - 2` clones are inserted starting at position 5; with
exactly 2 pages nothing changes.  Deletions are guarded by the deck length
as in the source. -/
def adjust_paper_slides (deck : List SlideKind) (paper_pages : Nat) :
    List SlideKind :=
  if paper_pages = 0 then
    let d1 := if 4 < deck.length then deck.eraseIdx 4 else deck
    if 3 < d1.length then d1.eraseIdx 3 else d1
  else if paper_pages = 1 then
    if 4 < deck.length then deck.eraseIdx 4 else deck
  else if paper_pages > 2 then
    insert_extra_paper_slides deck (paper_pages - 2) 5
  else deck

/-- The capacity-schedule literal of the paper fill loop of
`_render_single_resume` step 5: `capacities = [8, 11, 11, 11, 11, 11]`,
with 11 for any later page. -/
def paper_capacities : List Nat := [8, 11, 11, 11, 11, 11]

/-- The paper fill loop of `_render_single_resume` step 5, with the loop
counter made structural: `remaining` pages are left, the current page is
`page_num`, and the next unwritten item is `paper_offset`.  Page `page_num`
is filled only when slide `3 + page_num` exists; its window is
`paper_items[paper_offset:end]` with
`end = min(paper_offset + capacity, len(paper_items))`.  The result is the
list of windows written, page by page. -/
def paper_fill_windows_aux (deck_len : Nat) (items : List PaperItem) :
    Nat → Nat → Nat → List (List PaperItem)
  | 0, _, _ => []
  | remaining + 1, page_num, paper_offset =>
      if 3 + page_num < deck_len then
        let capacity := paper_capacities.getD page_num 11
        let e := min (paper_offset + capacity) items.length
        ((items.take e).drop paper_offset)
          :: paper_fill_windows_aux deck_len items remaining (page_num + 1) e
      else
        paper_fill_windows_aux deck_len items remaining (page_num + 1)
          paper_offset

/-- The windows written by one render pass over `paper_pages` paper pages
(`for page_num in range(paper_pages)` with `paper_offset = 0`). -/
def paper_fill_windows (deck_len : Nat) (items : List PaperItem)
    (paper_pages : Nat) : List (List PaperItem) :=
  paper_fill_windows_aux deck_len items paper_pages 0 0

/-- The title cell expression of `_fill_paper_table`:
`paper.title[:80] if len(paper.title) > 80 else paper.title`. -/
def fill_paper_title (title : String) : String :=
  hardCap 80 title

/-- The title truncation of `PPTRenderer._create_papers_table`: the local
`title` is replaced by `title[:77] + "..."` when `len(title) > 80`. -/
def create_papers_table_title (title : String) : String :=
  if pyLen title > 80 then pyConcat (pyTake 77 title) "..." else title

/-!
Concrete inputs used by witnesses and counterexamples.
-/

/-- An 80-character title, exactly at the cap. -/
def title80 : String :=
  String.mk (List.replicate 80 'a')

/-- An 81-character title, one over the cap. -/
def title81 : String :=
  String.mk (List.replicate 81 'a')

/-- One concrete flattened paper row. -/
def sample_paper_item : PaperItem :=
  { index := 0, title := "T", journal := "J", category := "-",
    year := "2024", is_first_author := "待确认" }

/-- Twenty-five flattened papers, the count of the end-to-end scenario. -/
def sample_papers_25 : List PaperItem :=
  List.replicate 25 sample_paper_item

/-- A paper-table slide's table: 1 header row plus 11 data rows of 5 cells,
holding stale text. -/
def table12x5 : List (List String) :=
  List.replicate 12 (List.replicate 5 "stale")

/-- An achievements-table slide's table: 1 header row plus 7 data rows of
4 cells, holding stale text. -/
def table8x4 : List (List String) :=
  List.replicate 8 (List.replicate 4 "stale")

/-- Two awards, as in the merged-section ordering scenario. -/
def awards2 : List Award :=
  [{ name := "A1", year := "2020" }, { name := "A2", year := "2021" }]

/-- Three other achievements, as in the merged-section ordering scenario. -/
def other3 : List OtherAchievement :=
  [{ category := "O1", names := ["N1"], count := "1", year := "2020",
     note := "" },
   { category := "O2", names := ["N2"], count := "1", year := "2021",
     note := "" },
   { category := "O3", names := ["N3"], count := "1", year := "2022",
     note := "" }]

/-- A publication group whose year field splits into two tokens while it
holds three titles: the token count does not match the sub-title count. -/
def mismatch_group : PaperGroup :=
  { journal := "J", category := "SCI", years := "2020、2021",
    titles := ["T1", "T2", "T3"] }

/-!
Helper lemmas about the planner.
-/

/-- The project page count is at least 1 (one placeholder page when the
project list is empty, a positive ceiling otherwise). -/
theorem project_pages_part_pos (projects : List Project) :
    1 ≤ project_pages_part projects := by
  unfold project_pages_part
  split
  · exact Nat.le_refl 1
  · rename_i h
    have hl : 1 ≤ projects.length := by
      cases projects with
      | nil => exact absurd rfl h
      | cons a l => exact Nat.succ_le_succ (Nat.zero_le _)
    omega

/-- The achievements page count is at least 1 in every branch. -/
theorem other_pages_part_pos (awards : List Award)
    (other : List OtherAchievement) :
    1 ≤ other_pages_part awards other := by
  unfold other_pages_part
  split
  · exact Nat.le_refl 1
  · dsimp only
    split
    · exact Nat.le_refl 1
    · split
      · exact Nat.le_refl 1
      · omega

/-- The project page count recomputed in `_render_single_resume` agrees with
the one inside `_calculate_project_pages`. -/
theorem render_project_pages_count_eq (projects : List Project) :
    render_project_pages_count projects = project_pages_part projects := by
  cases projects <;>
    simp [render_project_pages_count, project_pages_part]

/-!
Helper lemmas about the extractor.
-/

/-- The inner loop emits one item per title. -/
theorem extract_group_aux_length (index0 : Nat) (j c : String)
    (yl : List String) :
    ∀ (i0 : Nat) (ts : List String),
      (extract_group_aux index0 j c yl i0 ts).length = ts.length
  | _, [] => rfl
  | i0, _ :: ts => by
    simp [extract_group_aux, extract_group_aux_length index0 j c yl (i0 + 1) ts]

/-- The global indices emitted by the inner loop are consecutive, starting
at `index0 + i0`. -/
theorem extract_group_aux_map_index (index0 : Nat) (j c : String)
    (yl : List String) :
    ∀ (i0 : Nat) (ts : List String),
      (extract_group_aux index0 j c yl i0 ts).map PaperItem.index
        = List.range' (index0 + i0) ts.length
  | _, [] => rfl
  | i0, _ :: ts => by
    simp only [extract_group_aux, List.map_cons, List.length_cons,
      extract_group_aux_map_index index0 j c yl (i0 + 1) ts]
    rw [List.range'_succ]
    rfl

/-- The inner loop emits the titles in order, unchanged. -/
theorem extract_group_aux_map_title (index0 : Nat) (j c : String)
    (yl : List String) :
    ∀ (i0 : Nat) (ts : List String),
      (extract_group_aux index0 j c yl i0 ts).map PaperItem.title = ts
  | _, [] => rfl
  | i0, _ :: ts => by
    simp [extract_group_aux, extract_group_aux_map_title index0 j c yl (i0 + 1) ts,
      PaperItem.fromInit]

/-- The item built at position `k` of the inner loop, explicitly. -/
theorem extract_group_aux_getD (index0 : Nat) (j c : String)
    (yl : List String) :
    ∀ (i0 : Nat) (ts : List String) (k : Nat), k < ts.length →
      (extract_group_aux index0 j c yl i0 ts).getD k default
        = PaperItem.fromInit (index0 + (i0 + k)) (ts.getD k "") j c
            (yl.getD (i0 + k) (yl.headD "-")) "待确认"
  | _, [], k, h => absurd h (by simp)
  | i0, t :: ts, 0, _ => by simp [extract_group_aux]
  | i0, t :: ts, k + 1, h => by
    simp only [extract_group_aux, List.getD_cons_succ, List.length_cons] at h ⊢
    rw [extract_group_aux_getD index0 j c yl (i0 + 1) ts k (by omega)]
    rw [show i0 + 1 + k = i0 + (k + 1) by omega]

/-- The group loop: index sequence of the whole output. -/
theorem extract_from_map_index :
    ∀ (n : Nat) (gs : List PaperGroup),
      (extract_paper_items_from n gs).map PaperItem.index
        = List.range' n ((gs.map (fun g => g.titles.length)).sum)
  | _, [] => rfl
  | n, g :: gs => by
    simp only [extract_paper_items_from, List.map_append, List.map_cons,
      List.sum_cons, extract_group_items, extract_group_aux_map_index,
      extract_from_map_index (n + g.titles.length) gs]
    rw [Nat.add_comm g.titles.length ((gs.map (fun g => g.titles.length)).sum)]
    exact List.range'_append_1 n g.titles.length _

/-- The group loop: title sequence of the whole output. -/
theorem extract_from_map_title :
    ∀ (n : Nat) (gs : List PaperGroup),
      (extract_paper_items_from n gs).map PaperItem.title
        = (gs.map (fun g => g.titles)).flatten
  | _, [] => rfl
  | n, g :: gs => by
    simp [extract_paper_items_from, extract_group_items,
      extract_group_aux_map_title, extract_from_map_title (n + g.titles.length) gs]

/-- The group loop: output length. -/
theorem extract_from_length (n : Nat) (gs : List PaperGroup) :
    (extract_paper_items_from n gs).length
      = (gs.map (fun g => g.titles.length)).sum := by
  have h := congrArg List.length (extract_from_map_index n gs)
  simpa using h

/-!
Claim theorems.
-/

/-- C3: the paper page planner maps item counts 0, 1, 8, 9, 19, 30 under the
capacity schedule [8, 11, 11, ...] to page counts 0, 1, 1, 2, 2, 3; in
general it returns 0 for zero items, 1 for 1 to 8 items, and otherwise
1 plus the ceiling of (n - 8) / 11, which is 1 + (n - 8 + 11 - 1) / 11 in
natural division. -/
theorem C3_paper_page_planner :
    (calculate_paper_pages 0 = 0 ∧ calculate_paper_pages 1 = 1
      ∧ calculate_paper_pages 8 = 1 ∧ calculate_paper_pages 9 = 2
      ∧ calculate_paper_pages 19 = 2 ∧ calculate_paper_pages 30 = 3)
    ∧ (∀ n : Nat, 1 ≤ n → n ≤ 8 → calculate_paper_pages n = 1)
    ∧ (∀ n : Nat, 8 < n →
        calculate_paper_pages n = 1 + (n - 8 + 11 - 1) / 11) := by
  refine ⟨by decide, ?_, ?_⟩
  · intro n h1 h8
    unfold calculate_paper_pages
    rw [if_neg (by omega), if_pos h8]
  · intro n h8
    unfold calculate_paper_pages
    rw [if_neg (by omega), if_neg (by omega)]
    omega

/-- C8: the planner returns at least 1 page for the project section and at
least 1 page for the merged awards plus other-achievements section, even on
empty inputs, so the combined page count is at least 2 for every input. -/
theorem C8_planner_minimum_pages (projects : List Project)
    (awards : List Award) (other : List OtherAchievement) :
    1 ≤ project_pages_part projects
      ∧ 1 ≤ other_pages_part awards other
      ∧ 2 ≤ calculate_project_pages projects awards other := by
  refine ⟨project_pages_part_pos projects, other_pages_part_pos awards other, ?_⟩
  have h1 := project_pages_part_pos projects
  have h2 := other_pages_part_pos awards other
  unfold calculate_project_pages
  omega

/-- C9: in `_render_single_resume`, the achievements page count
(`other_pages_count = project_pages - project_pages_count`, where
`project_pages_count` repeats the planner's ceil(n/10)-with-minimum-1
formula) is at least 1 for every input, so the `other_pages_count == 0`
branch — the one that would delete the template's achievements slide — is
unreachable. -/
theorem C9_achievements_delete_branch_unreachable (projects : List Project)
    (awards : List Award) (other : List OtherAchievement) :
    render_project_pages_count projects = project_pages_part projects
      ∧ 1 ≤ render_other_pages_count projects awards other := by
  refine ⟨render_project_pages_count_eq projects, ?_⟩
  have h2 := other_pages_part_pos awards other
  unfold render_other_pages_count calculate_project_pages
  rw [render_project_pages_count_eq]
  omega

/-- C10: `render_all` on an empty subject list fails with the invalid-input
error `ValueError("简历列表不能为空")` raised before any template is opened
or any slide rendered, and no output is produced. -/
theorem C10_empty_subject_list_rejected :
    render_all [] = Except.error "简历列表不能为空"
      ∧ (render_all []).toOption = none :=
  ⟨rfl, rfl⟩

/-- C7 (amended): in the optimized renderer's `_fill_paper_table`, a title
of exactly the 80-character cap is written unchanged, and a title of 81
characters is hard-cut to exactly 80 characters with no marker; in the
legacy `PPTRenderer._create_papers_table`, however, a title over the cap is
cut to 77 characters and the three-character marker "..." is appended. -/
theorem C7_truncation_boundary (s : String) :
    (pyLen s = 80 →
      fill_paper_title s = s ∧ create_papers_table_title s = s)
    ∧ (pyLen s = 81 →
        fill_paper_title s = pyTake 80 s
        ∧ pyLen (fill_paper_title s) = 80
        ∧ create_papers_table_title s = pyConcat (pyTake 77 s) "...") := by
  constructor
  · intro h
    constructor
    · simp [fill_paper_title, hardCap, h]
    · simp [create_papers_table_title, h]
  · intro h
    refine ⟨by simp [fill_paper_title, hardCap, h], ?_, ?_⟩
    · have h1 : fill_paper_title s = pyTake 80 s := by
        simp [fill_paper_title, hardCap, h]
      rw [h1]
      show (s.data.take 80).length = 80
      rw [List.length_take]
      have h2 : s.data.length = 81 := h
      omega
    · simp [create_papers_table_title, h]

/-- C7 counterexample: for the 81-character title, the legacy renderer's
truncation is not the marker-free hard cut to the cap length that the claim
states — it appends "..." after cutting to 77 characters. -/
theorem C7_counterexample :
    create_papers_table_title title81 = pyConcat (pyTake 77 title81) "..."
      ∧ ¬ create_papers_table_title title81 = pyTake 80 title81 := by
  constructor
  · decide
  · decide

/-- C4: the extractor emits exactly one flat item per sub-title, in group
order then sub-title order: the output length is the sum of the groups'
title-list lengths, the 1-based global indices are exactly 1, 2, ...
(strictly increasing by 1 across the whole output), and the title sequence
is the in-order concatenation of the groups' title lists — no group or
sub-item is reordered. -/
theorem C4_flattening_preserves_order (papers : List PaperGroup) :
    (extract_paper_items papers).length
        = (papers.map (fun g => g.titles.length)).sum
      ∧ (extract_paper_items papers).map PaperItem.index
        = List.range' 1 ((papers.map (fun g => g.titles.length)).sum)
      ∧ (extract_paper_items papers).map PaperItem.title
        = (papers.map (fun g => g.titles)).flatten :=
  ⟨extract_from_length 1 papers, extract_from_map_index 1 papers,
    extract_from_map_title 1 papers⟩

/-- C6 (amended): the year of the item at in-group position `i` is token `i`
of the comma/connector-split year field whenever `i` is below the token
count — in particular positionally when the token count equals the
sub-title count — and otherwise the first token, or "-" when there are no
tokens; a token list shorter than the title list is still consumed
positionally for the first tokens, not replaced by the first token
throughout. -/
theorem C6_year_assignment (g : PaperGroup) (i : Nat)
    (h : i < g.titles.length) :
    ((extract_paper_items [g]).getD i default).year
        = (year_tokens g.years).getD i ((year_tokens g.years).headD "-")
      ∧ ((year_tokens g.years).length = g.titles.length →
        ((extract_paper_items [g]).getD i default).year
          = (year_tokens g.years).getD i "-") := by
  have hmain : (extract_paper_items [g]).getD i default
      = PaperItem.fromInit (1 + (0 + i)) (g.titles.getD i "")
          (pyCharRemove '》' (pyCharRemove '《' g.journal))
          (if g.category = "" then "-" else g.category)
          ((year_tokens g.years).getD (0 + i)
            ((year_tokens g.years).headD "-")) "待确认" := by
    show (extract_group_items 1 g ++ extract_paper_items_from
        (1 + g.titles.length) []).getD i default = _
    rw [show extract_paper_items_from (1 + g.titles.length) []
        = [] from rfl, List.append_nil]
    exact extract_group_aux_getD 1 _ _ _ 0 g.titles i h
  constructor
  · rw [hmain, Nat.zero_add]
    rfl
  · intro hlen
    rw [hmain, Nat.zero_add]
    show (year_tokens g.years).getD i ((year_tokens g.years).headD "-")
      = (year_tokens g.years).getD i "-"
    have hi : i < (year_tokens g.years).length := by omega
    rw [List.getD_eq_getElem _ _ hi, List.getD_eq_getElem _ _ hi]

/-- C6 witness: for the two-token, three-title group, the item at position 1
receives token 1. -/
theorem C6_year_assignment_witness :
    ((extract_paper_items [mismatch_group]).getD 1 default).year
      = (year_tokens mismatch_group.years).getD 1
        ((year_tokens mismatch_group.years).headD "-") :=
  (C6_year_assignment mismatch_group 1 (by decide)).1

/-- C6 counterexample: the group's year field splits into 2 tokens while it
has 3 titles, so by the claim every item would receive the first token
"2020"; the extractor instead assigns ["2020", "2021", "2020"] — item 1
gets token 1, not the first token. -/
theorem C6_counterexample :
    (year_tokens mismatch_group.years).length ≠ mismatch_group.titles.length
      ∧ (extract_paper_items [mismatch_group]).map (fun it => it.year)
        = ["2020", "2021", "2020"]
      ∧ ¬ (extract_paper_items [mismatch_group]).map (fun it => it.year)
        = ["2020", "2020", "2020"] := by
  refine ⟨by decide, by decide, by decide⟩

/-!
Helper lemmas about clearing and filling tables.
-/

/-- Clearing rows is mapping every cell of every row to `""`. -/
theorem clear_rows_eq_map :
    ∀ rows : List (List String),
      clear_rows rows = rows.map (fun row => row.map (fun _ => ""))
  | [] => rfl
  | row :: rest => by simp [clear_rows, clear_rows_eq_map rest]

/-- Writing one paper row preserves the row's cell count. -/
theorem fill_row_with_paper_length (row : List String) (p : PaperItem) :
    (fill_row_with_paper row p).length = row.length := by
  unfold fill_row_with_paper
  split <;> simp

/-- Rows of equal cell count clear to the same row. -/
theorem clear_cells_eq_of_length (r1 r2 : List String)
    (h : r1.length = r2.length) :
    r1.map (fun _ => ("" : String)) = r2.map (fun _ => ("" : String)) := by
  have a1 : r1.map (fun _ => ("" : String))
      = List.replicate r1.length "" := by simp [List.map_const]
  have a2 : r2.map (fun _ => ("" : String))
      = List.replicate r2.length "" := by simp [List.map_const]
  rw [a1, a2, h]

/-- Clearing is idempotent. -/
theorem clear_rows_idem :
    ∀ rows : List (List String), clear_rows (clear_rows rows) = clear_rows rows
  | [] => rfl
  | row :: rest => by
    simp [clear_rows, clear_rows_idem rest, List.map_map]

/-- Clearing after a paper fill gives the same rows as clearing alone: the
fill changes no row's cell count. -/
theorem clear_rows_fill_paper_rows :
    ∀ (rows : List (List String)) (items : List PaperItem),
      clear_rows (fill_paper_rows rows items) = clear_rows rows
  | [], items => by cases items <;> rfl
  | row :: rest, [] => rfl
  | row :: rest, item :: items => by
    simp only [fill_paper_rows, clear_rows,
      clear_rows_fill_paper_rows rest items]
    rw [clear_cells_eq_of_length _ _ (fill_row_with_paper_length row item)]

/-- The paper fill loop never touches rows past its item window. -/
theorem fill_paper_rows_drop :
    ∀ (rows : List (List String)) (items : List PaperItem),
      (fill_paper_rows rows items).drop items.length
        = rows.drop items.length
  | [], items => by cases items <;> rfl
  | row :: rest, [] => rfl
  | row :: rest, item :: items => by
    simp only [fill_paper_rows, List.length_cons, List.drop_succ_cons]
    exact fill_paper_rows_drop rest items

/-- Past the window, a filled paper table holds exactly the cleared
original rows. -/
theorem fill_paper_table_drop (t : List (List String))
    (w : List PaperItem) :
    (fill_paper_table t w).drop (1 + w.length)
      = (t.drop (1 + w.length)).map (fun row => row.map (fun _ => "")) := by
  cases t with
  | nil => cases w <;> rfl
  | cons header rest =>
    show (header :: fill_paper_rows (clear_rows rest) w).drop (1 + w.length)
      = _
    rw [show 1 + w.length = w.length + 1 by omega]
    simp only [List.drop_succ_cons]
    rw [fill_paper_rows_drop, clear_rows_eq_map, List.map_drop]

/-- C5: a fill depends only on the most recent window — filling a table that
was already filled with any first window (for example 3 items) and then
refilled with any second window (for example 1 item) gives exactly the
table obtained by the second fill alone, because every data row is cleared
before each write; no residue of the first window's items survives. -/
theorem C5_refill_leaves_no_residue (table : List (List String))
    (w1 w2 : List PaperItem) :
    fill_paper_table (fill_paper_table table w1) w2
      = fill_paper_table table w2 := by
  cases table with
  | nil => rfl
  | cons header rest =>
    show header
        :: fill_paper_rows (clear_rows (fill_paper_rows (clear_rows rest) w1)) w2
      = header :: fill_paper_rows (clear_rows rest) w2
    rw [clear_rows_fill_paper_rows (clear_rows rest) w1, clear_rows_idem rest]

/-- Reading a row through `drop` is reading at the shifted index. -/
theorem getD_drop_add (l : List (List String)) (n i : Nat) :
    (l.drop n).getD i [] = l.getD (n + i) [] := by
  simp [List.getD, List.getElem?_drop]

/-- Reading an in-range row of a cell-wise cleared table. -/
theorem getD_map_clear (l : List (List String)) (k : Nat)
    (h : k < l.length) :
    (l.map (fun row => row.map (fun _ => ("" : String)))).getD k []
      = (l.getD k []).map (fun _ => "") := by
  rw [List.getD_eq_getElem _ _ (by simpa using h),
    List.getD_eq_getElem _ _ h]
  simp

/-- Any in-range row of a table is a member of the table. -/
theorem getD_mem (t : List (List String)) (i : Nat) (h : i < t.length) :
    t.getD i [] ∈ t := by
  rw [List.getD_eq_getElem _ _ h]
  exact List.getElem_mem h

/-- A row with at least four cells splits into four cells and a tail. -/
theorem exists_four_cells (row : List String) (h : 4 ≤ row.length) :
    ∃ c0 c1 c2 c3 rest, row = c0 :: c1 :: c2 :: c3 :: rest := by
  rcases row with _ | ⟨c0, row⟩
  · simp at h
  rcases row with _ | ⟨c1, row⟩
  · simp at h
  rcases row with _ | ⟨c2, row⟩
  · simp at h
  rcases row with _ | ⟨c3, row⟩
  · simp at h
  exact ⟨c0, c1, c2, c3, row, rfl⟩

/-- The full row written for one award. -/
theorem fill_award_row_eq (c0 c1 c2 c3 : String) (rest : List String)
    (a : Award) (first : Bool) (n : Nat) :
    fill_award_row (c0 :: c1 :: c2 :: c3 :: rest) a first n
      = (if first then "获奖情况" else "")
          :: hardCap 80 a.name
          :: (if first then toString n ++ "项" else "1项")
          :: (if a.year = "" then "" else a.year) :: rest := by
  simp [fill_award_row, List.set, Nat.le_add_left]

/-- The full row written for one other achievement. -/
theorem fill_other_row_eq (c0 c1 c2 c3 : String) (rest : List String)
    (item : OtherAchievement) :
    fill_other_row (c0 :: c1 :: c2 :: c3 :: rest) item
      = pyTake 20 item.category
          :: hardCap 80
            (if item.names ≠ [] then pyJoin "、" item.names else "")
          :: item.count
          :: hardCap 50 (pyConcat item.year (pyConcat " " item.note))
          :: rest := by
  simp [fill_other_row, List.set, Nat.le_add_left]

/-- Row `k` of the award-write loop, while awards remain. -/
theorem fill_achievement_rows_award_getD (n : Nat) :
    ∀ (cr : Nat) (rows : List (List String)) (as_ : List Award)
      (os : List OtherAchievement) (k : Nat),
      k < as_.length → k < rows.length →
      (fill_achievement_rows n cr rows as_ os).getD k []
        = fill_award_row (rows.getD k []) (as_.getD k default)
            (cr + k == 1) n
  | _, [], _, _, k, _, hr => absurd hr (by simp)
  | _, _ :: _, [], _, k, hk, _ => absurd hk (by simp)
  | cr, row :: rest, a :: as_, os, 0, _, _ => by
    simp [fill_achievement_rows]
  | cr, row :: rest, a :: as_, os, k + 1, hk, hr => by
    simp only [fill_achievement_rows, List.getD_cons_succ]
    rw [fill_achievement_rows_award_getD n (cr + 1) rest as_ os k
      (by simp at hk; omega) (by simp at hr; omega)]
    rw [show cr + 1 + k = cr + (k + 1) by omega]

/-- After all awards are written, the loop continues with the
other-achievement rows right after them. -/
theorem fill_achievement_rows_drop_awards (n : Nat) :
    ∀ (cr : Nat) (rows : List (List String)) (as_ : List Award)
      (os : List OtherAchievement),
      as_.length ≤ rows.length →
      (fill_achievement_rows n cr rows as_ os).drop as_.length
        = fill_other_rows (rows.drop as_.length) os
  | _, rows, [], os, _ => by
    cases rows <;> cases os <;> simp [fill_achievement_rows, fill_other_rows]
  | _, [], _ :: _, _, h => absurd h (by simp)
  | cr, row :: rest, a :: as_, os, h => by
    simp only [fill_achievement_rows, List.length_cons, List.drop_succ_cons]
    exact fill_achievement_rows_drop_awards n (cr + 1) rest as_ os
      (by simp at h; omega)

/-- Row `k` of the other-achievements loop, while items remain. -/
theorem fill_other_rows_getD :
    ∀ (rows : List (List String)) (os : List OtherAchievement) (k : Nat),
      k < os.length → k < rows.length →
      (fill_other_rows rows os).getD k []
        = fill_other_row (rows.getD k []) (os.getD k default)
  | [], _, k, _, hr => absurd hr (by simp)
  | _ :: _, [], k, hk, _ => absurd hk (by simp)
  | row :: rest, item :: os, 0, _, _ => by simp [fill_other_rows]
  | row :: rest, item :: os, k + 1, hk, hr => by
    simp only [fill_other_rows, List.getD_cons_succ]
    exact fill_other_rows_getD rest os k (by simp at hk; omega)
      (by simp at hr; omega)

/-- The other-achievements loop never touches rows past its item list. -/
theorem fill_other_rows_drop :
    ∀ (rows : List (List String)) (os : List OtherAchievement),
      (fill_other_rows rows os).drop os.length = rows.drop os.length
  | [], os => by cases os <;> rfl
  | _ :: _, [] => rfl
  | row :: rest, item :: os => by
    simp only [fill_other_rows, List.length_cons, List.drop_succ_cons]
    exact fill_other_rows_drop rest os

/-- On achievements page 0, when the combined list fits the 7-row page, the
page slices are the full award list followed by the full
other-achievements list. -/
theorem achievements_page_slices_zero (awards : List Award)
    (other : List OtherAchievement)
    (hfit : awards.length + other.length ≤ 7) :
    achievements_page_slices awards other 0 = (awards, other) := by
  simp only [achievements_page_slices]
  by_cases hA : 0 < awards.length
  · rw [if_pos (by simpa using hA)]
    have e1 : min (min (0 * 7 + 7) (awards.length + other.length))
        awards.length = awards.length := by omega
    rw [e1, List.take_length, List.drop_zero]
    by_cases hO : 0 < other.length
    · rw [if_pos ⟨by omega, by omega⟩]
      have e2 : min (0 * 7 + 7) (awards.length + other.length)
          - awards.length = other.length := by omega
      rw [e2, List.take_length]
      simp
    · have hO' : other = [] := by
        cases other with
        | nil => rfl
        | cons o os => simp at hO
      subst hO'
      rw [if_neg (by simp only [List.length_nil, Nat.add_zero]; omega)]
  · have hA' : awards = [] := by
      cases awards with
      | nil => rfl
      | cons a as => simp at hA
    subst hA'
    rw [if_neg (by simp)]
    have e3 : min (0 * 7 + 7) (([] : List Award).length + other.length)
        - ([] : List Award).length = other.length := by
      simp only [List.length_nil, Nat.zero_add]; omega
    rw [e3, List.take_length]
    simp

/-- C2: when awards and other achievements together fit one 7-row page, the
filled achievements table holds all award rows first, in input order
(rows 1 to len(awards), with the 获奖情况 group label only on the first),
immediately followed by all other-achievement rows in input order, and
every data row past them is left cleared — award and other-achievement
rows never interleave. -/
theorem C2_merged_section_ordering (t : List (List String))
    (awards : List Award) (other : List OtherAchievement)
    (ht : t.length = 8) (hcells : ∀ row ∈ t, 4 ≤ row.length)
    (hfit : awards.length + other.length ≤ 7) :
    (∀ i, i < awards.length →
      ((fill_achievements_page t awards other 0).getD (1 + i) []).getD 0 ""
          = (if i = 0 then "获奖情况" else "")
        ∧ ((fill_achievements_page t awards other 0).getD (1 + i) []).getD
            1 "" = hardCap 80 ((awards.getD i default).name))
    ∧ (∀ j, j < other.length →
      ((fill_achievements_page t awards other 0).getD
          (1 + (awards.length + j)) []).getD 0 ""
          = pyTake 20 ((other.getD j default).category)
        ∧ ((fill_achievements_page t awards other 0).getD
            (1 + (awards.length + j)) []).getD 1 ""
          = hardCap 80 (if (other.getD j default).names ≠ [] then
              pyJoin "、" ((other.getD j default).names) else ""))
    ∧ (fill_achievements_page t awards other 0).drop
          (1 + (awards.length + other.length))
        = (t.drop (1 + (awards.length + other.length))).map
            (fun row => row.map (fun _ => "")) := by
  have hpage : fill_achievements_page t awards other 0
      = fill_other_achievements_table t other awards true := by
    unfold fill_achievements_page
    rw [achievements_page_slices_zero awards other hfit]
    rfl
  obtain ⟨header, rest, rfl⟩ : ∃ h r, t = h :: r := by
    cases t with
    | nil => simp at ht
    | cons h r => exact ⟨h, r, rfl⟩
  have hrest : rest.length = 7 := by simpa using ht
  have hresult : fill_other_achievements_table (header :: rest) other
      awards true
      = header :: fill_achievement_rows awards.length 1 (clear_rows rest)
          awards other := rfl
  have hclr_len : (clear_rows rest).length = rest.length := by
    rw [clear_rows_eq_map]; simp
  have hcell4 : ∀ k, k < 7 → 4 ≤ ((clear_rows rest).getD k []).length := by
    intro k hk
    rw [clear_rows_eq_map, getD_map_clear rest k (by omega)]
    simp only [List.length_map]
    exact hcells (rest.getD k [])
      (List.mem_cons_of_mem header (getD_mem rest k (by omega)))
  rw [hpage, hresult]
  refine ⟨?_, ?_, ?_⟩
  · intro i hi
    rw [show 1 + i = i + 1 by omega]
    simp only [List.getD_cons_succ]
    rw [fill_achievement_rows_award_getD awards.length 1 (clear_rows rest)
      awards other i hi (by omega)]
    obtain ⟨c0, c1, c2, c3, rtail, hrow⟩ :=
      exists_four_cells _ (hcell4 i (by omega))
    rw [hrow, fill_award_row_eq]
    constructor
    · cases i with
      | zero => simp
      | succ k => simp
    · simp
  · intro j hj
    rw [show 1 + (awards.length + j) = awards.length + j + 1 by omega]
    simp only [List.getD_cons_succ]
    rw [← getD_drop_add _ awards.length j]
    rw [fill_achievement_rows_drop_awards awards.length 1 (clear_rows rest)
      awards other (by omega)]
    rw [fill_other_rows_getD _ other j hj (by simp [hclr_len, hrest]; omega)]
    rw [getD_drop_add]
    obtain ⟨c0, c1, c2, c3, rtail, hrow⟩ :=
      exists_four_cells _ (hcell4 (awards.length + j) (by omega))
    rw [hrow, fill_other_row_eq]
    constructor <;> simp
  · rw [show 1 + (awards.length + other.length)
        = awards.length + other.length + 1 by omega]
    simp only [List.drop_succ_cons]
    rw [show (fill_achievement_rows awards.length 1 (clear_rows rest)
          awards other).drop (awards.length + other.length)
        = ((fill_achievement_rows awards.length 1 (clear_rows rest)
          awards other).drop awards.length).drop other.length from by
      rw [List.drop_drop]]
    rw [fill_achievement_rows_drop_awards awards.length 1 (clear_rows rest)
      awards other (by omega)]
    rw [fill_other_rows_drop]
    rw [show (((clear_rows rest).drop awards.length).drop other.length)
        = (clear_rows rest).drop (awards.length + other.length) from by
      rw [List.drop_drop]]
    rw [clear_rows_eq_map, List.map_drop]

/-- C2 witness: the claim's own scenario — awards [A1, A2] and other
achievements [O1, O2, O3] on one 7-row page. -/
theorem C2_merged_section_ordering_witness :
    (∀ i, i < awards2.length →
      ((fill_achievements_page table8x4 awards2 other3 0).getD (1 + i)
          []).getD 0 "" = (if i = 0 then "获奖情况" else "")
        ∧ ((fill_achievements_page table8x4 awards2 other3 0).getD (1 + i)
            []).getD 1 "" = hardCap 80 ((awards2.getD i default).name))
    ∧ (∀ j, j < other3.length →
      ((fill_achievements_page table8x4 awards2 other3 0).getD
          (1 + (awards2.length + j)) []).getD 0 ""
          = pyTake 20 ((other3.getD j default).category)
        ∧ ((fill_achievements_page table8x4 awards2 other3 0).getD
            (1 + (awards2.length + j)) []).getD 1 ""
          = hardCap 80 (if (other3.getD j default).names ≠ [] then
              pyJoin "、" ((other3.getD j default).names) else ""))
    ∧ (fill_achievements_page table8x4 awards2 other3 0).drop
          (1 + (awards2.length + other3.length))
        = (table8x4.drop (1 + (awards2.length + other3.length))).map
            (fun row => row.map (fun _ => "")) :=
  C2_merged_section_ordering table8x4 awards2 other3 (by decide) (by decide)
    (by decide)

/-- C1: for 25 flattened papers with capacity schedule [8, 11, 11] and the
template's default 2 paper slides, one render pass plans 3 paper pages,
inserts exactly 1 cloned paper slide immediately before the project
section (the deck grows from 8 to 9 slides with the third paper slide at
index 5, right before the project slide), fills items 0-7 on paper
page 1, items 8-18 on page 2 and items 19-24 on page 3, and leaves the
third page's remaining data rows (past its 6 items) cleared. -/
theorem C1_end_to_end_scenario (items : List PaperItem)
    (t : List (List String)) (h : items.length = 25) :
    calculate_paper_pages items.length = 3
    ∧ adjust_paper_slides template_slides
        (calculate_paper_pages items.length)
        = [SlideKind.cover, SlideKind.indexSummary, SlideKind.basicInfo,
           SlideKind.paperTable, SlideKind.paperTable, SlideKind.paperTable,
           SlideKind.projectTable, SlideKind.achievementTable,
           SlideKind.closing]
    ∧ (adjust_paper_slides template_slides
          (calculate_paper_pages items.length)).length
        = template_slides.length + 1
    ∧ paper_fill_windows
        (adjust_paper_slides template_slides
          (calculate_paper_pages items.length)).length items
        (calculate_paper_pages items.length)
        = [items.take 8, (items.take 19).drop 8, (items.take 25).drop 19]
    ∧ (fill_paper_table t ((items.take 25).drop 19)).drop 7
        = (t.drop 7).map (fun row => row.map (fun _ => "")) := by
  have hcalc : calculate_paper_pages items.length = 3 := by
    rw [h]; decide
  have hdeck : adjust_paper_slides template_slides 3
      = [SlideKind.cover, SlideKind.indexSummary, SlideKind.basicInfo,
         SlideKind.paperTable, SlideKind.paperTable, SlideKind.paperTable,
         SlideKind.projectTable, SlideKind.achievementTable,
         SlideKind.closing] := by decide
  refine ⟨hcalc, ?_, ?_, ?_, ?_⟩
  · rw [hcalc]; exact hdeck
  · rw [hcalc, hdeck]; rfl
  · rw [hcalc, hdeck]
    have e1 : min (0 + 8) items.length = 8 := by omega
    have e2 : min (8 + 11) items.length = 19 := by omega
    have e3 : min (19 + 11) items.length = 25 := by omega
    show paper_fill_windows_aux 9 items 3 0 0 = _
    rw [show paper_fill_windows_aux 9 items 3 0 0
        = (items.take (min (0 + 8) items.length)).drop 0
          :: paper_fill_windows_aux 9 items 2 1
            (min (0 + 8) items.length) from rfl]
    rw [e1]
    rw [show paper_fill_windows_aux 9 items 2 1 8
        = (items.take (min (8 + 11) items.length)).drop 8
          :: paper_fill_windows_aux 9 items 1 2
            (min (8 + 11) items.length) from rfl]
    rw [e2]
    rw [show paper_fill_windows_aux 9 items 1 2 19
        = (items.take (min (19 + 11) items.length)).drop 19
          :: paper_fill_windows_aux 9 items 0 3
            (min (19 + 11) items.length) from rfl]
    rw [e3]
    rw [show paper_fill_windows_aux 9 items 0 3 25 = [] from rfl]
    rw [List.drop_zero]
  · have hlen : ((items.take 25).drop 19).length = 6 := by
      simp [h]
    have hd := fill_paper_table_drop t ((items.take 25).drop 19)
    rw [hlen] at hd
    rw [show (1 + 6 : Nat) = 7 from rfl] at hd
    exact hd

/-- C1 witness: the scenario at a concrete 25-item list and a concrete
12-row paper table. -/
theorem C1_end_to_end_scenario_witness :
    calculate_paper_pages sample_papers_25.length = 3
    ∧ adjust_paper_slides template_slides
        (calculate_paper_pages sample_papers_25.length)
        = [SlideKind.cover, SlideKind.indexSummary, SlideKind.basicInfo,
           SlideKind.paperTable, SlideKind.paperTable, SlideKind.paperTable,
           SlideKind.projectTable, SlideKind.achievementTable,
           SlideKind.closing]
    ∧ (adjust_paper_slides template_slides
          (calculate_paper_pages sample_papers_25.length)).length
        = template_slides.length + 1
    ∧ paper_fill_windows
        (adjust_paper_slides template_slides
          (calculate_paper_pages sample_papers_25.length)).length
        sample_papers_25 (calculate_paper_pages sample_papers_25.length)
        = [sample_papers_25.take 8, (sample_papers_25.take 19).drop 8,
           (sample_papers_25.take 25).drop 19]
    ∧ (fill_paper_table table12x5 ((sample_papers_25.take 25).drop 19)).drop 7
        = (table12x5.drop 7).map (fun row => row.map (fun _ => "")) :=
  C1_end_to_end_scenario sample_papers_25 table12x5 (by decide)
